import Mathlib

/-!
Shallow embedding of the nanobot persistent-memory subsystem:
MemoryStore.consolidate / append_history (nanobot/agent/memory.py),
VectorMemoryStore (nanobot/agent/vector_memory.py) and
DatabaseManager.get_user_id (nanobot/utils/db.py).

External collaborators (the LLM provider, the DashScope embedding provider,
json.loads, and the PostgreSQL engine error behavior) are modelled as
explicit oracle inputs; the SQL query semantics of the similarity search is
modelled directly (filter, order by distance ascending, limit).
-/

namespace Nanobot

/-- Model of a Python/JSON value as it can occur in a provider tool-call
argument payload (memory.py handles these duck-typed). -/
inductive PyVal where
  | vNone : PyVal
  | vBool : Bool → PyVal
  | vInt : Int → PyVal
  | vStr : String → PyVal
  | vList : List PyVal → PyVal
  | vDict : List (String × PyVal) → PyVal

/-- Python truthiness (`if x:`) for the modelled values. -/
def truthy : PyVal → Bool
  | .vNone => false
  | .vBool b => b
  | .vInt n => n != 0
  | .vStr s => s != ""
  | .vList xs => !xs.isEmpty
  | .vDict kvs => !kvs.isEmpty

/-- Escape of one character inside a JSON string literal (json.dumps with
ensure_ascii=False; the common escapes suffice for the modelled payloads). -/
def jsonEscapeChar (c : Char) : String :=
  if c = '"' then "\\\""
  else if c = '\\' then "\\\\"
  else if c = '\n' then "\\n"
  else if c = '\t' then "\\t"
  else if c = '\r' then "\\r"
  else String.singleton c

/-- JSON string literal for s. -/
def jsonQuote (s : String) : String :=
  "\"" ++ String.join (s.data.map jsonEscapeChar) ++ "\""

mutual

/-- Model of json.dumps(v, ensure_ascii=False) with the Python default
separators (", " and ": "), used by memory.py to coerce non-string
tool-call fields to strings. -/
def dumps : PyVal → String
  | .vNone => "null"
  | .vBool true => "true"
  | .vBool false => "false"
  | .vInt n => toString n
  | .vStr s => jsonQuote s
  | .vList xs => "[" ++ dumpsList xs ++ "]"
  | .vDict kvs => "\x7b" ++ dumpsMembers kvs ++ "\x7d"

/-- Comma-joined dump of the elements of a JSON array. -/
def dumpsList : List PyVal → String
  | [] => ""
  | [v] => dumps v
  | v :: rest => dumps v ++ ", " ++ dumpsList rest

/-- Comma-joined dump of the members of a JSON object. -/
def dumpsMembers : List (String × PyVal) → String
  | [] => ""
  | [(k, v)] => jsonQuote k ++ ": " ++ dumps v
  | (k, v) :: rest => jsonQuote k ++ ": " ++ dumps v ++ ", " ++ dumpsMembers rest

end

/-- The coercion memory.py applies to history_entry and memory_update:
keep a str as is, json.dumps anything else. -/
def coerceToStr : PyVal → String
  | .vStr s => s
  | v => dumps v

/-- Python dict .get on the modelled dict (keys of a Python dict are
unique, so first match is the match). -/
def pyGet (kvs : List (String × PyVal)) (key : String) : Option PyVal :=
  (kvs.find? (fun kv => kv.1 == key)).map (fun kv => kv.2)

/-- Python iteration over a value (for fact in facts): lists yield their
elements, strings their characters, dicts their keys; other values are
not iterable (a for loop over them raises TypeError, modelled as none). -/
def pyIter : PyVal → Option (List PyVal)
  | .vList xs => some xs
  | .vStr s => some (s.data.map (fun c => PyVal.vStr (String.singleton c)))
  | .vDict kvs => some (kvs.map (fun kv => PyVal.vStr kv.1))
  | _ => none

/-- Whitespace characters stripped by the Python str.strip()/str.rstrip() methods
(the ASCII ones: space, tab, newline, carriage return, vertical tab,
form feed). -/
def isPyWs (c : Char) : Bool :=
  c = ' ' || c = '\t' || c = '\n' || c = '\r' || c = '\x0b' || c = '\x0c'

/-- Python str.rstrip(): drop trailing whitespace. -/
def pyRstrip (s : String) : String :=
  String.mk ((s.data.reverse.dropWhile isPyWs).reverse)

/-- Python str.lstrip(): drop leading whitespace. -/
def pyLstrip (s : String) : String :=
  String.mk (s.data.dropWhile isPyWs)

/-- Python str.strip(): drop whitespace on both ends. -/
def pyStrip (s : String) : String :=
  pyLstrip (pyRstrip s)

/-! ## Database model (nanobot/utils/db.py) -/

/-- Contents of the three tables created by DatabaseManager._init_tables.
Embeddings are modelled as integer vectors. -/
structure DbTables where
  users : List Int
  user_identities : List (String × String × Int)
  vector_memories : List (Int × String × List ℤ)
deriving DecidableEq

/-- DatabaseManager: the enabled flag and the pool; a pool that is present
carries the table state it gives access to. -/
structure DatabaseManager where
  enabled : Bool
  pool : Option DbTables
deriving DecidableEq

/-- The WHERE clause of the identity lookup: channel = $1 AND
sender_id = $2. -/
def identMatches (channel sender_id : String) : String × String × Int → Bool :=
  fun row => row.1 == channel && row.2.1 == sender_id

/-- DatabaseManager.get_user_id. storageFails models an asyncpg exception
during the lookup or the creation transaction (caught: the function logs
and returns None; an aborted transaction leaves the tables unchanged).
A new users row receives the next SERIAL id. Returns the result and the
database state afterwards. -/
def get_user_id (dbm : DatabaseManager) (storageFails : Bool)
    (channel sender_id : String) : Option Int × DatabaseManager :=
  match dbm.pool with
  | none => (none, dbm)
  | some t =>
    if ¬dbm.enabled then (none, dbm)
    else if storageFails then (none, dbm)
    else
      match t.user_identities.find? (identMatches channel sender_id) with
      | some r => (some r.2.2, dbm)
      | none =>
        let user_id := (t.users.foldr max 0) + 1
        let t2 : DbTables :=
          { t with users := t.users ++ [user_id],
                   user_identities := t.user_identities ++ [(channel, sender_id, user_id)] }
        (some user_id, { dbm with pool := some t2 })

/-! ## Vector memory store model (nanobot/agent/vector_memory.py) -/

/-- Behavior of the external collaborators during one call sequence:
json.loads (none = raises), the DashScope embedding endpoint keyed by the
input text (none = non-OK status or exception), and whether an INSERT for
a given content raises. -/
structure Oracles where
  loads : String → Option PyVal
  embed : String → Option (List ℤ)
  insertFails : String → Bool

/-- VectorMemoryStore: its DatabaseManager (checked for truthiness in the
source, hence optional) and api_key. -/
structure VectorMemoryStore where
  db : Option DatabaseManager
  api_key : String
deriving DecidableEq

/-- VectorMemoryStore.get_embeddings: None when api_key is missing,
otherwise whatever the DashScope call produced (errors already folded
into the none of the oracle). -/
def get_embeddings (vs : VectorMemoryStore) (providerResult : Option (List ℤ)) :
    Option (List ℤ) :=
  if vs.api_key = "" then none else providerResult

/-- VectorMemoryStore.add_memory: no-op without a live enabled pool, no-op
when embedding fails, no-op when the INSERT raises (caught); otherwise
appends one vector_memories row. -/
def add_memory (vs : VectorMemoryStore) (o : Oracles) (user_id : Int)
    (content : String) : VectorMemoryStore :=
  match vs.db with
  | none => vs
  | some db =>
    if ¬db.enabled then vs
    else
      match db.pool with
      | none => vs
      | some t =>
        match get_embeddings vs (o.embed content) with
        | none => vs
        | some embedding =>
          if o.insertFails content then vs
          else
            let t2 : DbTables :=
              { t with vector_memories :=
                  t.vector_memories ++ [(user_id, content, embedding)] }
            let db2 : DatabaseManager := { db with pool := some t2 }
            { vs with db := some db2 }

/-- The rows produced by the similarity query in search_memories:
SELECT content FROM vector_memories WHERE user_id = $1
ORDER BY embedding <=> $2 LIMIT $3, with the pgvector cosine-distance
operator abstracted as the comparator dist. -/
def search_rows (t : DbTables) (dist : List ℤ → List ℤ → ℤ) (user_id : Int)
    (qemb : List ℤ) (limit : Nat) : List (Int × String × List ℤ) :=
  ((t.vector_memories.filter (fun r => r.1 == user_id)).insertionSort
      (fun a b => dist a.2.2 qemb ≤ dist b.2.2 qemb)).take limit

/-- VectorMemoryStore.search_memories: empty without a live enabled pool,
empty when embedding the query fails, empty when the fetch raises
(caught); otherwise the content column of the ordered, limited rows. -/
def search_memories (vs : VectorMemoryStore) (o : Oracles)
    (dist : List ℤ → List ℤ → ℤ) (fetchFails : Bool) (user_id : Int)
    (query : String) (limit : Nat) : List String :=
  match vs.db with
  | none => []
  | some db =>
    if ¬db.enabled then []
    else
      match db.pool with
      | none => []
      | some t =>
        match get_embeddings vs (o.embed query) with
        | none => []
        | some embedding =>
          if fetchFails then []
          else (search_rows t dist user_id embedding limit).map (fun r => r.2.1)

/-! ## Memory store model (nanobot/agent/memory.py) -/

/-- One session message dict as read by consolidate: m.get("content"),
m.get("timestamp", "?"), m["role"], m.get("tools_used"). Optional fields
model absent keys. -/
structure Message where
  role : String
  content : Option String
  timestamp : Option String
  tools_used : Option (List String)
deriving DecidableEq

/-- The part of a Session consolidate touches: the message list and the
last_consolidated cursor. -/
structure Session where
  messages : List Message
  last_consolidated : Nat
deriving DecidableEq

/-- Contents of the two files owned by MemoryStore: MEMORY.md (the
profile; read_long_term returns "" when it does not exist) and
HISTORY.md. -/
structure MemoryFiles where
  memory_file : String
  history_file : String
deriving DecidableEq

/-- MemoryStore.append_history: open HISTORY.md for append and write
entry.rstrip() + two newlines; returns the new file content. -/
def append_history (history_file entry : String) : String :=
  history_file ++ pyRstrip entry ++ "\n\n"

/-- The first tool call of a provider response; memory.py reads only its
arguments field. -/
structure ToolCall where
  arguments : PyVal

/-- A provider chat response as consumed by consolidate. -/
structure ChatResponse where
  has_tool_calls : Bool
  tool_calls : List ToolCall

/-- Transcript line for one message, or none when the message has falsy
content (such messages are dropped from the transcript). -/
def formatLine (m : Message) : Option String :=
  match m.content with
  | none => none
  | some c =>
    if c = "" then none
    else
      let tools :=
        match m.tools_used with
        | some ts => if ts.isEmpty then "" else " [tools: " ++ String.intercalate ", " ts ++ "]"
        | none => ""
      some ("[" ++ (m.timestamp.getD "?").take 16 ++ "] " ++ m.role.toUpper ++ tools ++ ": " ++ c)

/-- Python list slice messages[start:-keep]: an explicit -keep end index
selects up to len - keep, but -0 means an end index of 0, which yields
the empty list. -/
def pySliceNeg (xs : List Message) (start keep : Nat) : List Message :=
  if keep = 0 then [] else (xs.take (xs.length - keep)).drop start

/-- Slice-selection phase of consolidate (memory.py lines 91-104): none
means a no-op success return; some gives old_messages and keep_count. -/
def selectOld (session : Session) (archive_all : Bool) (memory_window : Nat) :
    Option (List Message × Nat) :=
  if archive_all then some (session.messages, 0)
  else
    let keep_count := memory_window / 2
    if session.messages.length ≤ keep_count then none
    else if session.messages.length - session.last_consolidated ≤ 0 then none
    else
      let old_messages := pySliceNeg session.messages session.last_consolidated keep_count
      if old_messages.isEmpty then none
      else some (old_messages, keep_count)

/-- The facts loop body: for each fact that is a str and truthy after
strip, await vector_store.add_memory(user_id, fact). Returns the final
store and, in order, the (user_id, fact) pairs forwarded to add_memory. -/
def processFacts (o : Oracles) (user_id : Int) (vs : VectorMemoryStore) :
    List PyVal → VectorMemoryStore × List (Int × String)
  | [] => (vs, [])
  | fact :: rest =>
    match fact with
    | .vStr s =>
      if pyStrip s ≠ "" then
        let vs1 := add_memory vs o user_id s
        let step := processFacts o user_id vs1 rest
        (step.1, (user_id, s) :: step.2)
      else processFacts o user_id vs rest
    | _ => processFacts o user_id vs rest

/-- Everything observable about one consolidate call: the returned
boolean, the session and files afterwards, whether MEMORY.md was written,
the vector store afterwards, the add_memory calls made, whether
provider.chat was reached, and the transcript lines built. -/
structure ConsolidateResult where
  ok : Bool
  session : Session
  files : MemoryFiles
  profileWritten : Bool
  vector_store : Option VectorMemoryStore
  addMemoryCalls : List (Int × String)
  providerCalled : Bool
  transcript : List String
deriving DecidableEq

/-- The no-op success return of consolidate (memory.py lines 98, 100,
103): true, nothing touched, provider never called. -/
def noopResult (session : Session) (files : MemoryFiles)
    (vector_store : Option VectorMemoryStore) : ConsolidateResult :=
  { ok := true, session := session, files := files, profileWritten := false,
    vector_store := vector_store, addMemoryCalls := [], providerCalled := false,
    transcript := [] }

/-- A failure return of consolidate reached before any mutation (the chat
call raised, no tool call, empty tool-call list, unparseable or non-dict
arguments): false, nothing touched. -/
def failResult (session : Session) (files : MemoryFiles)
    (vector_store : Option VectorMemoryStore) (transcript : List String) :
    ConsolidateResult :=
  { ok := false, session := session, files := files, profileWritten := false,
    vector_store := vector_store, addMemoryCalls := [], providerCalled := true,
    transcript := transcript }

/-- Resolution of the tool-call argument payload (memory.py lines
141-144): a str payload goes through json.loads (none = it raised),
anything else is used as is. -/
def resolveArgs (o : Oracles) : PyVal → Option PyVal
  | .vStr s => o.loads s
  | v => some v

/-- The history_entry step (memory.py lines 149-152): a truthy entry is
coerced to a string and appended to HISTORY.md; a falsy or absent one is
skipped. -/
def applyHistoryEntry (files : MemoryFiles) (kvs : List (String × PyVal)) :
    MemoryFiles :=
  match pyGet kvs "history_entry" with
  | some entry =>
    if truthy entry then
      { files with history_file :=
          append_history files.history_file (coerceToStr entry) }
    else files
  | none => files

/-- The memory_update step (memory.py lines 153-157): a truthy update is
coerced to a string and written to MEMORY.md only when it differs from
current_memory (the profile read at the start of the call). Returns the
files and whether MEMORY.md was written. -/
def applyMemoryUpdate (current_memory : String) (files1 : MemoryFiles)
    (kvs : List (String × PyVal)) : MemoryFiles × Bool :=
  match pyGet kvs "memory_update" with
  | some update =>
    if truthy update then
      let u := coerceToStr update
      if u ≠ current_memory then ({ files1 with memory_file := u }, true)
      else (files1, false)
    else (files1, false)
  | none => (files1, false)

/-- The facts step (memory.py lines 160-163): runs only when user_id is
truthy (present and non-zero), a vector store is present, and
args.get("facts") is truthy; none models the TypeError of a for loop
over a non-iterable facts value (caught by the outer except). -/
def factsOutcome (o : Oracles) (user_id : Option Int)
    (vector_store : Option VectorMemoryStore) (kvs : List (String × PyVal)) :
    Option (Option VectorMemoryStore × List (Int × String)) :=
  match user_id, vector_store with
  | some uid, some vs =>
    if uid ≠ 0 then
      match pyGet kvs "facts" with
      | some facts =>
        if truthy facts then
          match pyIter facts with
          | none => none
          | some items =>
            let done := processFacts o uid vs items
            some (some done.1, done.2)
        else some (some vs, [])
      | none => some (some vs, [])
    else some (some vs, [])
  | _, _ => some (vector_store, [])

/-- The response-handling stage of consolidate once the arguments are a
dict (memory.py lines 149-167): history append, profile overwrite if
changed, fact persistence, then the cursor advance; a TypeError in the
facts loop reaches the except block after the file writes, so those stay
while the cursor does not move and false is returned. -/
def handleArgs (session : Session) (files : MemoryFiles) (o : Oracles)
    (archive_all : Bool) (keep_count : Nat) (user_id : Option Int)
    (vector_store : Option VectorMemoryStore) (transcript : List String)
    (kvs : List (String × PyVal)) : ConsolidateResult :=
  let step2 := applyMemoryUpdate files.memory_file (applyHistoryEntry files kvs) kvs
  match factsOutcome o user_id vector_store kvs with
  | none =>
    { ok := false, session := session, files := step2.1,
      profileWritten := step2.2, vector_store := vector_store,
      addMemoryCalls := [], providerCalled := true, transcript := transcript }
  | some done =>
    { ok := true,
      session := { session with last_consolidated :=
        if archive_all then 0 else session.messages.length - keep_count },
      files := step2.1, profileWritten := step2.2, vector_store := done.1,
      addMemoryCalls := done.2, providerCalled := true,
      transcript := transcript }

/-- MemoryStore.consolidate. chatResult is the outcome of the awaited
provider.chat call (error = it raised). The except block around the whole
try is modelled by the failure results: whatever was already mutated
stays mutated, the function returns false, and the cursor is untouched.
No path other than the final success return of handleArgs assigns
session.last_consolidated. -/
def consolidate (session : Session) (files : MemoryFiles) (o : Oracles)
    (chatResult : Except Unit ChatResponse) (archive_all : Bool)
    (memory_window : Nat) (user_id : Option Int)
    (vector_store : Option VectorMemoryStore) : ConsolidateResult :=
  match selectOld session archive_all memory_window with
  | none => noopResult session files vector_store
  | some sel =>
    let transcript := sel.1.filterMap formatLine
    match chatResult with
    | .error _ => failResult session files vector_store transcript
    | .ok response =>
      if ¬response.has_tool_calls then failResult session files vector_store transcript
      else
        match response.tool_calls.head? with
        | none => failResult session files vector_store transcript
        | some tc =>
          match resolveArgs o tc.arguments with
          | none => failResult session files vector_store transcript
          | some args =>
            match args with
            | .vDict kvs =>
              handleArgs session files o archive_all sel.2 user_id vector_store
                transcript kvs
            | _ => failResult session files vector_store transcript

/-! ## Concrete fixtures used by counterexamples and witnesses -/

/-- A plain session message with content. -/
def exMsg : Message :=
  { role := "user", content := some "hi", timestamp := some "2024-01-01 10:00",
    tools_used := none }

/-- n copies of exMsg. -/
def exMsgs (n : Nat) : List Message := List.replicate n exMsg


/-- A response invoking save_memory with the given arguments. -/
def exResponse (v : PyVal) : ChatResponse :=
  { has_tool_calls := true, tool_calls := [{ arguments := v }] }

/-- Oracles: json.loads never consulted on dict payloads, embedding
succeeds, inserts succeed. -/
def exOracles : Oracles :=
  { loads := fun _ => none, embed := fun _ => some [1, 2], insertFails := fun _ => false }

/-- Concrete table contents for search and identity fixtures. -/
def exTable : DbTables :=
  { users := [1],
    user_identities := [("discord", "7", 1)],
    vector_memories := [(1, "far", [10]), (1, "near", [1]), (2, "other", [0]), (1, "mid", [5])] }

/-- A connected, enabled DatabaseManager over exTable. -/
def exDbm : DatabaseManager := { enabled := true, pool := some exTable }

/-- A live VectorMemoryStore over exDbm. -/
def exVs : VectorMemoryStore := { db := some exDbm, api_key := "k" }

/-- A concrete distance function standing in for the pgvector cosine
distance in witnesses (the theorems hold for any distance). -/
def sqdist (a b : List ℤ) : ℤ := ((a.zip b).map (fun p => (p.1 - p.2) * (p.1 - p.2))).sum

/-- Session of four messages, cursor at 0. -/
def exSession4 : Session := { messages := exMsgs 4, last_consolidated := 0 }

/-- Empty MEMORY.md and HISTORY.md. -/
def exFiles : MemoryFiles := { memory_file := "", history_file := "" }

/-- Whether a value is a Python dict (the isinstance(args, dict) check). -/
def isDict : PyVal → Bool
  | .vDict _ => true
  | _ => false

/-- Whether a value is a Python str (the isinstance(entry, str) check). -/
def isStr : PyVal → Bool
  | .vStr _ => true
  | _ => false

/-- The (user_id, fact) pairs the facts loop forwards to add_memory: the
facts that are str and truthy after strip, in order. -/
def factsForwarded (user_id : Int) : List PyVal → List (Int × String)
  | [] => []
  | f :: rest =>
    match f with
    | .vStr s =>
      if pyStrip s ≠ "" then (user_id, s) :: factsForwarded user_id rest
      else factsForwarded user_id rest
    | _ => factsForwarded user_id rest

/-- The members of the well-formed save_memory argument dict fixture. -/
def exKvsGood : List (String × PyVal) :=
  [("history_entry", .vStr "[2024-01-01 10:00] Discussed trip"),
   ("memory_update", .vStr "User likes hiking"),
   ("facts", .vList [.vStr "User has a dog named Rex"])]

/-- A well-formed save_memory argument dict (spec section 8 scenario). -/
def exArgsGood : PyVal := .vDict exKvsGood

/-- A response that never invokes save_memory. -/
def exRespNoTool : ChatResponse := { has_tool_calls := false, tool_calls := [] }

/-- Argument dict with an empty-string memory_update (falsy). -/
def c4Kvs : List (String × PyVal) :=
  [("history_entry", .vStr "h"), ("memory_update", .vStr "")]

/-- Files whose profile content is nonempty. -/
def c4Files : MemoryFiles := { memory_file := "old", history_file := "" }

/-- Argument dict whose history_entry is present, non-string and falsy. -/
def c6Kvs : List (String × PyVal) :=
  [("history_entry", .vBool false), ("memory_update", .vStr "m")]

/-- Argument dict whose history_entry is present, non-string and truthy. -/
def c6wKvs : List (String × PyVal) :=
  [("history_entry", .vList [.vStr "a", .vInt 3]), ("memory_update", .vStr "m")]

/-! ## Helper lemmas -/

lemma dropWhile_append_all {α} (p : α → Bool) (l r : List α)
    (h : ∀ c ∈ l, p c = true) : (l ++ r).dropWhile p = r.dropWhile p := by
  induction l with
  | nil => rfl
  | cons a as ih =>
    simp only [List.cons_append, List.dropWhile_cons, h a (by simp)]
    exact ih fun c hc => h c (by simp [hc])

lemma pyRstrip_append_ws (s : String) (ws : List Char)
    (h : ∀ c ∈ ws, isPyWs c = true) : pyRstrip (s ++ String.mk ws) = pyRstrip s := by
  unfold pyRstrip
  have hdata : (s ++ String.mk ws).data = s.data ++ ws := String.data_append s (String.mk ws)
  rw [hdata, List.reverse_append]
  rw [dropWhile_append_all isPyWs ws.reverse s.data.reverse
    (fun c hc => h c (List.mem_reverse.mp hc))]

lemma pyRstrip_no_trailing_ws (s : String) (c : Char)
    (h : (pyRstrip s).data.getLast? = some c) : isPyWs c = false := by
  unfold pyRstrip at h
  rw [List.getLast?_reverse] at h
  have hh := List.head?_dropWhile_not isPyWs s.data.reverse
  rw [h] at hh
  exact hh

/-! ## C10 -/

/-- C10: append_history writes entry.rstrip() followed by exactly one
newline and one blank line, so the appended block is invariant under any
trailing whitespace of the supplied entry, and the stripped text has no
trailing whitespace character. -/
theorem C10_append_history_normalizes (history entry : String) (ws : List Char)
    (hws : ∀ c ∈ ws, isPyWs c = true) :
    append_history history (entry ++ String.mk ws) = append_history history entry ∧
    append_history history entry = history ++ pyRstrip entry ++ "\n\n" ∧
    (∀ c, (pyRstrip entry).data.getLast? = some c → isPyWs c = false) := by
  refine ⟨?_, rfl, fun c hc => pyRstrip_no_trailing_ws entry c hc⟩
  unfold append_history
  rw [pyRstrip_append_ws entry ws hws]

/-- C10 witness: concrete instance with three trailing whitespace
characters. -/
theorem C10_append_history_normalizes_witness :
    (∀ c ∈ ['\n', ' ', '\t'], isPyWs c = true) ∧
    append_history "H" ("abc" ++ String.mk ['\n', ' ', '\t']) = append_history "H" "abc" :=
  ⟨by decide, (C10_append_history_normalizes "H" "abc" ['\n', ' ', '\t'] (by decide)).1⟩

/-! ## C9 -/

/-- C9: get_user_id returns none when not connected, disabled, or on a
storage error (leaving the tables untouched); returns the stored user_id
for a known (channel, sender_id) pair without mutation; creates one users
row and one user_identities row and returns the fresh id for an unknown
pair; and re-resolving the same pair is idempotent, so the mapping is
created at most once. -/
theorem C9_get_user_id_contract (dbm : DatabaseManager) (channel sender_id : String) :
    (dbm.pool = none → ∀ sf, get_user_id dbm sf channel sender_id = (none, dbm)) ∧
    (dbm.enabled = false → ∀ sf, get_user_id dbm sf channel sender_id = (none, dbm)) ∧
    (get_user_id dbm true channel sender_id = (none, dbm)) ∧
    (∀ t r, dbm.pool = some t → dbm.enabled = true →
      t.user_identities.find? (identMatches channel sender_id) = some r →
      get_user_id dbm false channel sender_id = (some r.2.2, dbm)) ∧
    (∀ t, dbm.pool = some t → dbm.enabled = true →
      t.user_identities.find? (identMatches channel sender_id) = none →
      ∃ uid dbm2 t2, get_user_id dbm false channel sender_id = (some uid, dbm2) ∧
        dbm2.enabled = dbm.enabled ∧ dbm2.pool = some t2 ∧
        t2.users = t.users ++ [uid] ∧
        t2.user_identities = t.user_identities ++ [(channel, sender_id, uid)] ∧
        t2.vector_memories = t.vector_memories) ∧
    (get_user_id (get_user_id dbm false channel sender_id).2 false channel sender_id
      = get_user_id dbm false channel sender_id) := by
  refine ⟨?_, ?_, ?_, ?_, ?_, ?_⟩
  · intro h sf
    simp [get_user_id, h]
  · intro h sf
    cases hp : dbm.pool with
    | none => simp [get_user_id, hp]
    | some t => simp [get_user_id, hp, h]
  · cases hp : dbm.pool with
    | none => simp [get_user_id, hp]
    | some t =>
      by_cases he : dbm.enabled <;> simp [get_user_id, hp, he]
  · intro t r hp he hf
    simp [get_user_id, hp, he, hf]
  · intro t hp he hf
    refine ⟨(t.users.foldr max 0) + 1,
      { enabled := dbm.enabled,
        pool := some
          { users := t.users ++ [(t.users.foldr max 0) + 1],
            user_identities :=
              t.user_identities ++ [(channel, sender_id, (t.users.foldr max 0) + 1)],
            vector_memories := t.vector_memories } },
      { users := t.users ++ [(t.users.foldr max 0) + 1],
        user_identities :=
          t.user_identities ++ [(channel, sender_id, (t.users.foldr max 0) + 1)],
        vector_memories := t.vector_memories },
      ?_, rfl, rfl, rfl, rfl, rfl⟩
    simp [get_user_id, hp, he, hf]
  · cases hp : dbm.pool with
    | none => simp [get_user_id, hp]
    | some t =>
      by_cases he : dbm.enabled
      · cases hf : t.user_identities.find? (identMatches channel sender_id) with
        | some r => simp [get_user_id, hp, he, hf]
        | none =>
          have hmatch : identMatches channel sender_id (channel, sender_id, (t.users.foldr max 0) + 1) = true := by
            simp [identMatches]
          have hfind2 : (t.user_identities ++ [(channel, sender_id, (t.users.foldr max 0) + 1)]).find?
              (identMatches channel sender_id)
              = some (channel, sender_id, (t.users.foldr max 0) + 1) := by
            rw [List.find?_append, hf]
            simp [List.find?, hmatch]
          simp [get_user_id, hp, he, hf, hfind2]
      · simp [get_user_id, hp, he]

/-- C9 witness: resolving a known pair returns its user_id unchanged, and
resolving twice is idempotent, at a concrete database state. -/
theorem C9_get_user_id_contract_witness :
    exDbm.pool = some exTable ∧ exDbm.enabled = true ∧
    exTable.user_identities.find? (identMatches "discord" "7") = some ("discord", "7", 1) ∧
    get_user_id exDbm false "discord" "7" = (some 1, exDbm) ∧
    get_user_id (get_user_id exDbm false "telegram" "42").2 false "telegram" "42"
      = get_user_id exDbm false "telegram" "42" :=
  ⟨rfl, rfl, by decide,
    (C9_get_user_id_contract exDbm "discord" "7").2.2.2.1 exTable ("discord", "7", 1)
      rfl rfl (by decide),
    (C9_get_user_id_contract exDbm "telegram" "42").2.2.2.2.2⟩

/-! ## C8 -/

lemma search_rows_sorted (t : DbTables) (dist : List ℤ → List ℤ → ℤ)
    (user_id : Int) (qemb : List ℤ) (limit : Nat) :
    (search_rows t dist user_id qemb limit).Pairwise
      (fun a b => dist a.2.2 qemb ≤ dist b.2.2 qemb) := by
  haveI : IsTotal (Int × String × List ℤ) (fun a b => dist a.2.2 qemb ≤ dist b.2.2 qemb) :=
    ⟨fun a b => le_total _ _⟩
  haveI : IsTrans (Int × String × List ℤ) (fun a b => dist a.2.2 qemb ≤ dist b.2.2 qemb) :=
    ⟨fun a b c hab hbc => le_trans hab hbc⟩
  have hs := List.sorted_insertionSort (fun a b => dist a.2.2 qemb ≤ dist b.2.2 qemb)
    (t.vector_memories.filter (fun r => r.1 == user_id))
  exact List.Pairwise.sublist (List.take_sublist limit _) hs

lemma search_rows_length (t : DbTables) (dist : List ℤ → List ℤ → ℤ)
    (user_id : Int) (qemb : List ℤ) (limit : Nat) :
    (search_rows t dist user_id qemb limit).length ≤ limit := by
  simp only [search_rows]
  exact List.length_take_le limit _

lemma search_rows_user (t : DbTables) (dist : List ℤ → List ℤ → ℤ)
    (user_id : Int) (qemb : List ℤ) (limit : Nat) :
    ∀ r ∈ search_rows t dist user_id qemb limit, r.1 = user_id := by
  intro r hr
  have h1 : r ∈ (t.vector_memories.filter (fun row => row.1 == user_id)).insertionSort
      (fun a b => dist a.2.2 qemb ≤ dist b.2.2 qemb) := List.mem_of_mem_take hr
  have h2 : r ∈ t.vector_memories.filter (fun row => row.1 == user_id) :=
    (List.perm_insertionSort _ _).mem_iff.mp h1
  have h3 := (List.mem_filter.mp h2).2
  exact eq_of_beq h3

/-- C8: search_memories returns the empty sequence (rather than raising)
when the store is missing, disabled, or unconnected, when embedding the
query fails, or when the fetch raises; its result never exceeds limit;
and on the live path it returns exactly the content column of the rows
scoped to user_id sorted by non-decreasing distance and truncated to
limit. -/
theorem C8_search_memories_contract (vs : VectorMemoryStore) (o : Oracles)
    (dist : List ℤ → List ℤ → ℤ) (fetchFails : Bool) (user_id : Int)
    (query : String) (limit : Nat) :
    (vs.db = none → search_memories vs o dist fetchFails user_id query limit = []) ∧
    (∀ db, vs.db = some db → db.enabled = false →
      search_memories vs o dist fetchFails user_id query limit = []) ∧
    (∀ db, vs.db = some db → db.pool = none →
      search_memories vs o dist fetchFails user_id query limit = []) ∧
    (get_embeddings vs (o.embed query) = none →
      search_memories vs o dist fetchFails user_id query limit = []) ∧
    (fetchFails = true → search_memories vs o dist fetchFails user_id query limit = []) ∧
    (search_memories vs o dist fetchFails user_id query limit).length ≤ limit ∧
    (∀ db t emb, vs.db = some db → db.enabled = true → db.pool = some t →
      get_embeddings vs (o.embed query) = some emb → fetchFails = false →
      search_memories vs o dist fetchFails user_id query limit
        = (search_rows t dist user_id emb limit).map (fun r => r.2.1) ∧
      (search_rows t dist user_id emb limit).Pairwise
        (fun a b => dist a.2.2 emb ≤ dist b.2.2 emb) ∧
      ∀ row ∈ search_rows t dist user_id emb limit, row.1 = user_id) := by
  refine ⟨?_, ?_, ?_, ?_, ?_, ?_, ?_⟩
  · intro h
    simp [search_memories, h]
  · intro db hdb he
    simp [search_memories, hdb, he]
  · intro db hdb hp
    cases he : db.enabled <;> simp [search_memories, hdb, hp, he]
  · intro h
    cases hdb : vs.db with
    | none => simp [search_memories, hdb]
    | some db =>
      cases hp : db.pool with
      | none => cases he : db.enabled <;> simp [search_memories, hdb, hp, he]
      | some t => cases he : db.enabled <;> simp [search_memories, hdb, hp, he, h]
  · intro h
    subst h
    cases hdb : vs.db with
    | none => simp [search_memories, hdb]
    | some db =>
      cases hp : db.pool with
      | none => cases he : db.enabled <;> simp [search_memories, hdb, hp, he]
      | some t =>
        cases he : db.enabled <;>
          cases hemb : get_embeddings vs (o.embed query) <;>
            simp [search_memories, hdb, hp, he, hemb]
  · cases hdb : vs.db with
    | none => simp [search_memories, hdb]
    | some db =>
      cases hp : db.pool with
      | none => cases he : db.enabled <;> simp [search_memories, hdb, hp, he]
      | some t =>
        cases he : db.enabled <;>
          cases hemb : get_embeddings vs (o.embed query) <;>
            cases fetchFails <;>
              simp [search_memories, hdb, hp, he, hemb, search_rows_length]
  · intro db t emb hdb he hp hemb hff
    subst hff
    refine ⟨?_, search_rows_sorted t dist user_id emb limit,
      search_rows_user t dist user_id emb limit⟩
    simp [search_memories, hdb, he, hp, hemb]

/-- C8 witness: at a concrete four-row table the live path returns the two
closest facts of user 1 in distance order; with a failing fetch it
returns the empty sequence. -/
theorem C8_search_memories_contract_witness :
    exVs.db = some exDbm ∧ exDbm.enabled = true ∧ exDbm.pool = some exTable ∧
    get_embeddings exVs (exOracles.embed "q") = some [1, 2] ∧
    search_memories exVs exOracles sqdist false 1 "q" 2
      = (search_rows exTable sqdist 1 [1, 2] 2).map (fun r => r.2.1) ∧
    search_memories exVs exOracles sqdist false 1 "q" 2 = ["near", "mid"] ∧
    search_memories exVs exOracles sqdist true 1 "q" 2 = [] := by
  have h := (C8_search_memories_contract exVs exOracles sqdist false 1 "q" 2).2.2.2.2.2.2
    exDbm exTable [1, 2] rfl rfl rfl (by decide) rfl
  have h2 := (C8_search_memories_contract exVs exOracles sqdist true 1 "q" 2).2.2.2.2.1 rfl
  exact ⟨rfl, rfl, rfl, by decide, h.1, by decide, h2⟩

/-! ## Path lemmas for consolidate -/

lemma consolidate_noop {session : Session} {files : MemoryFiles} {o : Oracles}
    {chatResult : Except Unit ChatResponse} {archive_all : Bool} {memory_window : Nat}
    {user_id : Option Int} {vector_store : Option VectorMemoryStore}
    (h : selectOld session archive_all memory_window = none) :
    consolidate session files o chatResult archive_all memory_window user_id vector_store
      = noopResult session files vector_store := by
  simp [consolidate, h]

lemma consolidate_chat_error {session : Session} {files : MemoryFiles} {o : Oracles}
    {archive_all : Bool} {memory_window : Nat} {user_id : Option Int}
    {vector_store : Option VectorMemoryStore} {sel : List Message × Nat} {e : Unit}
    (h : selectOld session archive_all memory_window = some sel) :
    consolidate session files o (.error e) archive_all memory_window user_id vector_store
      = failResult session files vector_store (sel.1.filterMap formatLine) := by
  simp [consolidate, h]

lemma consolidate_no_tool_calls {session : Session} {files : MemoryFiles} {o : Oracles}
    {archive_all : Bool} {memory_window : Nat} {user_id : Option Int}
    {vector_store : Option VectorMemoryStore} {sel : List Message × Nat}
    {resp : ChatResponse}
    (h : selectOld session archive_all memory_window = some sel)
    (htc : resp.has_tool_calls = false) :
    consolidate session files o (.ok resp) archive_all memory_window user_id vector_store
      = failResult session files vector_store (sel.1.filterMap formatLine) := by
  simp [consolidate, h, htc]

lemma consolidate_head_none {session : Session} {files : MemoryFiles} {o : Oracles}
    {archive_all : Bool} {memory_window : Nat} {user_id : Option Int}
    {vector_store : Option VectorMemoryStore} {sel : List Message × Nat}
    {resp : ChatResponse}
    (h : selectOld session archive_all memory_window = some sel)
    (htc : resp.has_tool_calls = true)
    (hhd : resp.tool_calls.head? = none) :
    consolidate session files o (.ok resp) archive_all memory_window user_id vector_store
      = failResult session files vector_store (sel.1.filterMap formatLine) := by
  simp [consolidate, h, htc, hhd]

lemma consolidate_args_none {session : Session} {files : MemoryFiles} {o : Oracles}
    {archive_all : Bool} {memory_window : Nat} {user_id : Option Int}
    {vector_store : Option VectorMemoryStore} {sel : List Message × Nat}
    {resp : ChatResponse} {tc : ToolCall}
    (h : selectOld session archive_all memory_window = some sel)
    (htc : resp.has_tool_calls = true)
    (hhd : resp.tool_calls.head? = some tc)
    (hargs : resolveArgs o tc.arguments = none) :
    consolidate session files o (.ok resp) archive_all memory_window user_id vector_store
      = failResult session files vector_store (sel.1.filterMap formatLine) := by
  simp [consolidate, h, htc, hhd, hargs]

lemma consolidate_nondict {session : Session} {files : MemoryFiles} {o : Oracles}
    {archive_all : Bool} {memory_window : Nat} {user_id : Option Int}
    {vector_store : Option VectorMemoryStore} {sel : List Message × Nat}
    {resp : ChatResponse} {tc : ToolCall} {v : PyVal}
    (h : selectOld session archive_all memory_window = some sel)
    (htc : resp.has_tool_calls = true)
    (hhd : resp.tool_calls.head? = some tc)
    (hargs : resolveArgs o tc.arguments = some v)
    (hv : isDict v = false) :
    consolidate session files o (.ok resp) archive_all memory_window user_id vector_store
      = failResult session files vector_store (sel.1.filterMap formatLine) := by
  cases v <;> simp_all [consolidate, isDict]

lemma consolidate_dict {session : Session} {files : MemoryFiles} {o : Oracles}
    {archive_all : Bool} {memory_window : Nat} {user_id : Option Int}
    {vector_store : Option VectorMemoryStore} {sel : List Message × Nat}
    {resp : ChatResponse} {tc : ToolCall} {kvs : List (String × PyVal)}
    (h : selectOld session archive_all memory_window = some sel)
    (htc : resp.has_tool_calls = true)
    (hhd : resp.tool_calls.head? = some tc)
    (hargs : resolveArgs o tc.arguments = some (.vDict kvs)) :
    consolidate session files o (.ok resp) archive_all memory_window user_id vector_store
      = handleArgs session files o archive_all sel.2 user_id vector_store
          (sel.1.filterMap formatLine) kvs := by
  simp [consolidate, h, htc, hhd, hargs]

lemma handleArgs_ok {session : Session} {files : MemoryFiles} {o : Oracles}
    {archive_all : Bool} {keep_count : Nat} {user_id : Option Int}
    {vector_store : Option VectorMemoryStore} {transcript : List String}
    {kvs : List (String × PyVal)} {done : Option VectorMemoryStore × List (Int × String)}
    (hf : factsOutcome o user_id vector_store kvs = some done) :
    handleArgs session files o archive_all keep_count user_id vector_store transcript kvs
      = { ok := true,
          session := { session with last_consolidated :=
            if archive_all then 0 else session.messages.length - keep_count },
          files := (applyMemoryUpdate files.memory_file (applyHistoryEntry files kvs) kvs).1,
          profileWritten := (applyMemoryUpdate files.memory_file (applyHistoryEntry files kvs) kvs).2,
          vector_store := done.1, addMemoryCalls := done.2, providerCalled := true,
          transcript := transcript } := by
  simp [handleArgs, hf]

lemma handleArgs_err {session : Session} {files : MemoryFiles} {o : Oracles}
    {archive_all : Bool} {keep_count : Nat} {user_id : Option Int}
    {vector_store : Option VectorMemoryStore} {transcript : List String}
    {kvs : List (String × PyVal)}
    (hf : factsOutcome o user_id vector_store kvs = none) :
    handleArgs session files o archive_all keep_count user_id vector_store transcript kvs
      = { ok := false, session := session,
          files := (applyMemoryUpdate files.memory_file (applyHistoryEntry files kvs) kvs).1,
          profileWritten := (applyMemoryUpdate files.memory_file (applyHistoryEntry files kvs) kvs).2,
          vector_store := vector_store, addMemoryCalls := [], providerCalled := true,
          transcript := transcript } := by
  simp [handleArgs, hf]

lemma selectOld_none_of_small {session : Session} {memory_window : Nat}
    (h : session.messages.length ≤ memory_window / 2 ∨
      session.messages.length - session.last_consolidated ≤ 0) :
    selectOld session false memory_window = none := by
  rcases h with h | h
  · simp [selectOld, h]
  · by_cases h1 : session.messages.length ≤ memory_window / 2 <;> simp [selectOld, h1, h]

lemma selectOld_none_of_empty {session : Session} {memory_window : Nat}
    (h : pySliceNeg session.messages session.last_consolidated (memory_window / 2) = []) :
    selectOld session false memory_window = none := by
  by_cases h1 : session.messages.length ≤ memory_window / 2
  · simp [selectOld, h1]
  · by_cases h2 : session.messages.length - session.last_consolidated ≤ 0 <;>
      simp [selectOld, h1, h2, h]

lemma selectOld_false_spec {session : Session} {memory_window : Nat}
    {sel : List Message × Nat}
    (h : selectOld session false memory_window = some sel) :
    sel.2 = memory_window / 2 ∧
    sel.1 = pySliceNeg session.messages session.last_consolidated (memory_window / 2) ∧
    1 ≤ memory_window / 2 ∧
    session.last_consolidated < session.messages.length - memory_window / 2 := by
  by_cases h1 : session.messages.length ≤ memory_window / 2
  · simp [selectOld, h1] at h
  · by_cases h2 : session.messages.length - session.last_consolidated ≤ 0
    · simp [selectOld, h1, h2] at h
    · by_cases h3 : pySliceNeg session.messages session.last_consolidated
        (memory_window / 2) = []
      · simp [selectOld, h1, h2, h3] at h
      · simp [selectOld, h1, h2, h3] at h
        have hk : memory_window / 2 ≠ 0 := by
          intro h0
          exact h3 (by simp [pySliceNeg, h0])
        have hslice : pySliceNeg session.messages session.last_consolidated
            (memory_window / 2)
            = (session.messages.take (session.messages.length - memory_window / 2)).drop
                session.last_consolidated := by
          simp [pySliceNeg, hk]
        have hlt : session.last_consolidated
            < session.messages.length - memory_window / 2 := by
          by_contra hge
          push_neg at hge
          apply h3
          rw [hslice]
          apply List.drop_eq_nil_of_le
          calc (session.messages.take (session.messages.length - memory_window / 2)).length
              ≤ session.messages.length - memory_window / 2 := by
                simp [List.length_take]
            _ ≤ session.last_consolidated := hge
        subst h
        exact ⟨rfl, rfl, Nat.one_le_iff_ne_zero.mpr hk, hlt⟩

/-! ## C1 -/

/-- C1 (amended): with archive_all false, keep_count is memory_window
integer-divided by 2; when len(messages) is at most keep_count or
len(messages) minus last_consolidated is at most 0 the call is a no-op
success; when the candidate slice is empty it is also a no-op success;
the candidate slice messages[last_consolidated:-keep_count] equals
messages[last_consolidated : len(messages) - keep_count] whenever
keep_count is at least 1, and is empty when keep_count is 0 (so a
window_size of 0 or 1 always no-ops). -/
theorem C1_noop_and_slice (session : Session) (files : MemoryFiles) (o : Oracles)
    (chatResult : Except Unit ChatResponse) (memory_window : Nat)
    (user_id : Option Int) (vector_store : Option VectorMemoryStore)
    (r : ConsolidateResult)
    (hr : r = consolidate session files o chatResult false memory_window user_id vector_store) :
    (session.messages.length ≤ memory_window / 2 ∨
      session.messages.length - session.last_consolidated ≤ 0 →
      r = noopResult session files vector_store) ∧
    (pySliceNeg session.messages session.last_consolidated (memory_window / 2) = [] →
      r = noopResult session files vector_store) ∧
    (1 ≤ memory_window / 2 →
      pySliceNeg session.messages session.last_consolidated (memory_window / 2)
        = (session.messages.take (session.messages.length - memory_window / 2)).drop
            session.last_consolidated) ∧
    (memory_window / 2 = 0 →
      pySliceNeg session.messages session.last_consolidated (memory_window / 2) = []) := by
  subst hr
  refine ⟨?_, ?_, ?_, ?_⟩
  · intro h
    exact consolidate_noop (selectOld_none_of_small h)
  · intro h
    exact consolidate_noop (selectOld_none_of_empty h)
  · intro h
    have hk : memory_window / 2 ≠ 0 := Nat.one_le_iff_ne_zero.mp h
    simp [pySliceNeg, hk]
  · intro h
    simp [pySliceNeg, h]

/-- C1 counterexample: with window_size 1 (keep_count 0) and two
archivable messages, the claimed slice messages[0 : len - 0] is the whole
nonempty message list, yet the code slices messages[0:-0] = [] and
returns a no-op success without ever calling the provider. -/
theorem C1_counterexample_window_one :
    pySliceNeg (exMsgs 2) 0 (1 / 2) = [] ∧
    ((exMsgs 2).take ((exMsgs 2).length - 1 / 2)).drop 0 = exMsgs 2 ∧
    exMsgs 2 ≠ [] ∧
    consolidate ⟨exMsgs 2, 0⟩ exFiles exOracles (.ok (exResponse exArgsGood)) false 1
        none none
      = noopResult ⟨exMsgs 2, 0⟩ exFiles none := by
  exact ⟨rfl, by decide, by decide, by decide⟩

/-- C1 witness: a session of two messages with window 50 is a no-op
success. -/
theorem C1_noop_and_slice_witness :
    (exMsgs 2).length ≤ 50 / 2 ∧
    consolidate ⟨exMsgs 2, 0⟩ exFiles exOracles (.ok (exResponse exArgsGood)) false 50
        none none
      = noopResult ⟨exMsgs 2, 0⟩ exFiles none :=
  ⟨by decide,
    (C1_noop_and_slice ⟨exMsgs 2, 0⟩ exFiles exOracles (.ok (exResponse exArgsGood)) 50
      none none _ rfl).1 (Or.inl (by decide))⟩

/-! ## C2 -/

/-- C2: when consolidate returns true after a completed tool-call round
trip the cursor equals 0 for archive_all and len(messages) minus
window/2 otherwise, and on every other path (no-op success, any failure)
the cursor is unchanged, so the success assignment is the only place the
cursor moves. -/
theorem C2_cursor_update (session : Session) (files : MemoryFiles) (o : Oracles)
    (chatResult : Except Unit ChatResponse) (archive_all : Bool) (memory_window : Nat)
    (user_id : Option Int) (vector_store : Option VectorMemoryStore)
    (r : ConsolidateResult)
    (hr : r = consolidate session files o chatResult archive_all memory_window
      user_id vector_store) :
    (r.ok = true ∧ r.providerCalled = true →
      r.session.last_consolidated =
        if archive_all then 0 else session.messages.length - memory_window / 2) ∧
    (r.ok = false ∨ r.providerCalled = false →
      r.session.last_consolidated = session.last_consolidated) := by
  subst hr
  cases hsel : selectOld session archive_all memory_window with
  | none =>
    rw [consolidate_noop hsel]
    exact ⟨fun h => absurd h.2 (by simp [noopResult]), fun _ => rfl⟩
  | some sel =>
    cases chatResult with
    | error e =>
      rw [consolidate_chat_error hsel]
      exact ⟨fun h => absurd h.1 (by simp [failResult]), fun _ => rfl⟩
    | ok resp =>
      cases htc : resp.has_tool_calls with
      | false =>
        rw [consolidate_no_tool_calls hsel htc]
        exact ⟨fun h => absurd h.1 (by simp [failResult]), fun _ => rfl⟩
      | true =>
        cases hhd : resp.tool_calls.head? with
        | none =>
          rw [consolidate_head_none hsel htc hhd]
          exact ⟨fun h => absurd h.1 (by simp [failResult]), fun _ => rfl⟩
        | some tc =>
          cases hargs : resolveArgs o tc.arguments with
          | none =>
            rw [consolidate_args_none hsel htc hhd hargs]
            exact ⟨fun h => absurd h.1 (by simp [failResult]), fun _ => rfl⟩
          | some v =>
            cases hd : isDict v with
            | false =>
              rw [consolidate_nondict hsel htc hhd hargs hd]
              exact ⟨fun h => absurd h.1 (by simp [failResult]), fun _ => rfl⟩
            | true =>
              obtain ⟨kvs, rfl⟩ : ∃ kvs, v = PyVal.vDict kvs := by
                cases v <;> simp_all [isDict]
              rw [consolidate_dict hsel htc hhd hargs]
              cases hf : factsOutcome o user_id vector_store kvs with
              | none =>
                rw [handleArgs_err hf]
                exact ⟨fun h => absurd h.1 (by simp), fun _ => rfl⟩
              | some done =>
                rw [handleArgs_ok hf]
                refine ⟨fun _ => ?_, fun h => ?_⟩
                · cases archive_all with
                  | true => rfl
                  | false =>
                    have hk := (selectOld_false_spec hsel).1
                    simp [hk]
                · rcases h with h | h <;> simp_all
  -- end of C2

/-- C2 witness: four messages, window 4, a valid response: the cursor
moves to 4 - 2 = 2. -/
theorem C2_cursor_update_witness :
    (consolidate exSession4 exFiles exOracles (.ok (exResponse exArgsGood)) false 4
      none none).ok = true ∧
    (consolidate exSession4 exFiles exOracles (.ok (exResponse exArgsGood)) false 4
      none none).session.last_consolidated = 2 := by
  have h := (C2_cursor_update exSession4 exFiles exOracles (.ok (exResponse exArgsGood))
    false 4 none none _ rfl).1 ⟨by decide, by decide⟩
  exact ⟨by decide, by rw [h]; decide⟩

/-! ## C3 -/

/-- C3: when the generation response invokes no tool (or invokes one with
an empty tool-call list), or the arguments of the first tool call are a string
that json.loads rejects or parses to a non-dict, consolidate returns
false and mutates nothing: files, cursor, vector store and add_memory
call list are all untouched. -/
theorem C3_failure_no_mutation (session : Session) (files : MemoryFiles) (o : Oracles)
    (archive_all : Bool) (memory_window : Nat) (user_id : Option Int)
    (vector_store : Option VectorMemoryStore) (resp : ChatResponse)
    (sel : List Message × Nat)
    (hsel : selectOld session archive_all memory_window = some sel)
    (h : resp.has_tool_calls = false ∨ resp.tool_calls.head? = none ∨
      (∃ tc s, resp.tool_calls.head? = some tc ∧ tc.arguments = PyVal.vStr s ∧
        (o.loads s = none ∨ ∃ v, o.loads s = some v ∧ isDict v = false))) :
    consolidate session files o (.ok resp) archive_all memory_window user_id vector_store
      = failResult session files vector_store (sel.1.filterMap formatLine) ∧
    (failResult session files vector_store (sel.1.filterMap formatLine)).ok = false ∧
    (failResult session files vector_store (sel.1.filterMap formatLine)).session = session ∧
    (failResult session files vector_store (sel.1.filterMap formatLine)).files = files ∧
    (failResult session files vector_store (sel.1.filterMap formatLine)).vector_store
      = vector_store ∧
    (failResult session files vector_store (sel.1.filterMap formatLine)).addMemoryCalls
      = [] := by
  refine ⟨?_, rfl, rfl, rfl, rfl, rfl⟩
  rcases h with h | h | ⟨tc, str, hhd, harg, hl⟩
  · exact consolidate_no_tool_calls hsel h
  · cases htc : resp.has_tool_calls with
    | false => exact consolidate_no_tool_calls hsel htc
    | true => exact consolidate_head_none hsel htc h
  · cases htc : resp.has_tool_calls with
    | false => exact consolidate_no_tool_calls hsel htc
    | true =>
      rcases hl with hl | ⟨v, hl, hv⟩
      · refine consolidate_args_none hsel htc hhd ?_
        rw [harg]
        exact hl
      · refine consolidate_nondict hsel htc hhd ?_ hv
        rw [harg]
        exact hl

/-- C3 witness: a response with has_tool_calls false yields false with no
mutation at a concrete session. -/
theorem C3_failure_no_mutation_witness :
    selectOld exSession4 false 4 = some ([exMsg, exMsg], 2) ∧
    consolidate exSession4 exFiles exOracles (.ok exRespNoTool) false 4 none none
      = failResult exSession4 exFiles none ([exMsg, exMsg].filterMap formatLine) :=
  ⟨by decide,
    (C3_failure_no_mutation exSession4 exFiles exOracles false 4 none none exRespNoTool
      ([exMsg, exMsg], 2) (by decide) (Or.inl rfl)).1⟩

/-! ## C4 -/

lemma applyHistoryEntry_memory (files : MemoryFiles) (kvs : List (String × PyVal)) :
    (applyHistoryEntry files kvs).memory_file = files.memory_file := by
  unfold applyHistoryEntry
  cases h : pyGet kvs "history_entry" with
  | none => rfl
  | some v => cases ht : truthy v <;> simp [ht]

lemma applyMemoryUpdate_spec (cm : String) (f1 : MemoryFiles)
    (kvs : List (String × PyVal)) :
    ((applyMemoryUpdate cm f1 kvs).2 = true ↔
      ∃ v, pyGet kvs "memory_update" = some v ∧ truthy v = true ∧ coerceToStr v ≠ cm) ∧
    ((applyMemoryUpdate cm f1 kvs).2 = false → (applyMemoryUpdate cm f1 kvs).1 = f1) ∧
    (∀ v, pyGet kvs "memory_update" = some v → (applyMemoryUpdate cm f1 kvs).2 = true →
      (applyMemoryUpdate cm f1 kvs).1.memory_file = coerceToStr v) ∧
    (applyMemoryUpdate cm f1 kvs).1.history_file = f1.history_file := by
  unfold applyMemoryUpdate
  cases h : pyGet kvs "memory_update" with
  | none => simp
  | some v =>
    cases ht : truthy v with
    | false => simp [ht]
    | true =>
      by_cases hne : coerceToStr v ≠ cm
      · simp [ht, hne]
      · push_neg at hne
        simp [ht, hne]

/-- C4 (amended): once the call reaches response handling with a valid
argument dict, MEMORY.md is written if and only if memory_update is
present with a truthy value whose string coercion differs byte-for-byte
from the profile content read at the start; when not written the profile
content is unchanged, and when written it becomes exactly that coerced
value. (The original iff fails for a falsy memory_update such as "".) -/
theorem C4_profile_write_iff (session : Session) (files : MemoryFiles) (o : Oracles)
    (archive_all : Bool) (memory_window : Nat) (user_id : Option Int)
    (vector_store : Option VectorMemoryStore) (resp : ChatResponse)
    (sel : List Message × Nat) (tc : ToolCall) (kvs : List (String × PyVal))
    (hsel : selectOld session archive_all memory_window = some sel)
    (htc : resp.has_tool_calls = true)
    (hhd : resp.tool_calls.head? = some tc)
    (hargs : resolveArgs o tc.arguments = some (.vDict kvs))
    (r : ConsolidateResult)
    (hr : r = consolidate session files o (.ok resp) archive_all memory_window
      user_id vector_store) :
    (r.profileWritten = true ↔
      ∃ v, pyGet kvs "memory_update" = some v ∧ truthy v = true ∧
        coerceToStr v ≠ files.memory_file) ∧
    (r.profileWritten = false → r.files.memory_file = files.memory_file) ∧
    (∀ v, pyGet kvs "memory_update" = some v → r.profileWritten = true →
      r.files.memory_file = coerceToStr v) := by
  subst hr
  rw [consolidate_dict hsel htc hhd hargs]
  have hm := applyMemoryUpdate_spec files.memory_file (applyHistoryEntry files kvs) kvs
  have hfields :
      (handleArgs session files o archive_all sel.2 user_id vector_store
        (sel.1.filterMap formatLine) kvs).profileWritten
        = (applyMemoryUpdate files.memory_file (applyHistoryEntry files kvs) kvs).2 ∧
      (handleArgs session files o archive_all sel.2 user_id vector_store
        (sel.1.filterMap formatLine) kvs).files
        = (applyMemoryUpdate files.memory_file (applyHistoryEntry files kvs) kvs).1 := by
    cases hf : factsOutcome o user_id vector_store kvs with
    | none => rw [handleArgs_err hf]; exact ⟨rfl, rfl⟩
    | some done => rw [handleArgs_ok hf]; exact ⟨rfl, rfl⟩
  rw [hfields.1, hfields.2]
  refine ⟨hm.1, ?_, hm.2.2.1⟩
  intro hw
  rw [hm.2.1 hw]
  exact applyHistoryEntry_memory files kvs

/-- C4 counterexample: with stored profile "old" and memory_update "",
the proposed value differs byte-for-byte from the stored one, yet the
profile is not written because "" is falsy. -/
theorem C4_counterexample_empty_update :
    pyGet c4Kvs "memory_update" = some (.vStr "") ∧
    coerceToStr (.vStr "") ≠ c4Files.memory_file ∧
    (consolidate exSession4 c4Files exOracles (.ok (exResponse (.vDict c4Kvs))) false 4
      none none).profileWritten = false ∧
    (consolidate exSession4 c4Files exOracles (.ok (exResponse (.vDict c4Kvs))) false 4
      none none).files.memory_file = c4Files.memory_file ∧
    (consolidate exSession4 c4Files exOracles (.ok (exResponse (.vDict c4Kvs))) false 4
      none none).ok = true :=
  ⟨rfl, by decide, by decide, by decide, by decide⟩

/-- C4 witness: a truthy memory_update that differs is written and the
profile becomes exactly it. -/
theorem C4_profile_write_iff_witness :
    (consolidate exSession4 exFiles exOracles (.ok (exResponse exArgsGood)) false 4
      none none).profileWritten = true ∧
    (consolidate exSession4 exFiles exOracles (.ok (exResponse exArgsGood)) false 4
      none none).files.memory_file = "User likes hiking" := by
  have h := C4_profile_write_iff exSession4 exFiles exOracles false 4 none none
    (exResponse exArgsGood) ([exMsg, exMsg], 2) ⟨exArgsGood⟩ exKvsGood
    (by decide) rfl rfl rfl _ rfl
  have hw : (consolidate exSession4 exFiles exOracles (.ok (exResponse exArgsGood)) false 4
      none none).profileWritten = true :=
    h.1.mpr ⟨.vStr "User likes hiking", rfl, rfl, by decide⟩
  exact ⟨hw, h.2.2 (.vStr "User likes hiking") rfl hw⟩

/-! ## C5 -/

/-- C5 (amended): the cursor always stays within 0 and len(messages) and
the message list itself is never touched; on every no-op or failed call
the cursor is unchanged; across successful non-archive consolidations it
is monotonically non-decreasing (an archive_all success instead resets it
to 0, so unqualified monotonicity does not hold). -/
theorem C5_cursor_invariant (session : Session) (files : MemoryFiles) (o : Oracles)
    (chatResult : Except Unit ChatResponse) (archive_all : Bool) (memory_window : Nat)
    (user_id : Option Int) (vector_store : Option VectorMemoryStore)
    (hlc : session.last_consolidated ≤ session.messages.length)
    (r : ConsolidateResult)
    (hr : r = consolidate session files o chatResult archive_all memory_window
      user_id vector_store) :
    r.session.messages = session.messages ∧
    r.session.last_consolidated ≤ session.messages.length ∧
    (archive_all = false → session.last_consolidated ≤ r.session.last_consolidated) ∧
    (r.ok = false ∨ r.providerCalled = false →
      r.session.last_consolidated = session.last_consolidated) := by
  subst hr
  cases hsel : selectOld session archive_all memory_window with
  | none =>
    rw [consolidate_noop hsel]
    exact ⟨rfl, hlc, fun _ => le_rfl, fun _ => rfl⟩
  | some sel =>
    cases chatResult with
    | error e =>
      rw [consolidate_chat_error hsel]
      exact ⟨rfl, hlc, fun _ => le_rfl, fun _ => rfl⟩
    | ok resp =>
      cases htc : resp.has_tool_calls with
      | false =>
        rw [consolidate_no_tool_calls hsel htc]
        exact ⟨rfl, hlc, fun _ => le_rfl, fun _ => rfl⟩
      | true =>
        cases hhd : resp.tool_calls.head? with
        | none =>
          rw [consolidate_head_none hsel htc hhd]
          exact ⟨rfl, hlc, fun _ => le_rfl, fun _ => rfl⟩
        | some tc =>
          cases hargs : resolveArgs o tc.arguments with
          | none =>
            rw [consolidate_args_none hsel htc hhd hargs]
            exact ⟨rfl, hlc, fun _ => le_rfl, fun _ => rfl⟩
          | some v =>
            cases hd : isDict v with
            | false =>
              rw [consolidate_nondict hsel htc hhd hargs hd]
              exact ⟨rfl, hlc, fun _ => le_rfl, fun _ => rfl⟩
            | true =>
              obtain ⟨kvs, rfl⟩ : ∃ kvs, v = PyVal.vDict kvs := by
                cases v <;> simp_all [isDict]
              rw [consolidate_dict hsel htc hhd hargs]
              cases hf : factsOutcome o user_id vector_store kvs with
              | none =>
                rw [handleArgs_err hf]
                exact ⟨rfl, hlc, fun _ => le_rfl, fun _ => rfl⟩
              | some done =>
                rw [handleArgs_ok hf]
                refine ⟨rfl, ?_, ?_, ?_⟩
                · cases archive_all with
                  | true => simp
                  | false => simp [Nat.sub_le]
                · intro ha
                  subst ha
                  have hspec := selectOld_false_spec hsel
                  simp only [if_neg (by simp : ¬(false = true))]
                  rw [hspec.1]
                  exact le_of_lt (lt_of_lt_of_le hspec.2.2.2 (Nat.sub_le_sub_right le_rfl _))
                · intro h
                  rcases h with h | h <;> simp_all
  -- end of C5

/-- C5 counterexample: an archive_all success strictly decreases the
cursor (1 to 0), refuting unqualified monotonic non-decrease across
successful consolidations. -/
theorem C5_counterexample_archive_reset :
    (consolidate ⟨exMsgs 1, 1⟩ exFiles exOracles (.ok (exResponse exArgsGood)) true 50
      none none).ok = true ∧
    (consolidate ⟨exMsgs 1, 1⟩ exFiles exOracles (.ok (exResponse exArgsGood)) true 50
      none none).providerCalled = true ∧
    (consolidate ⟨exMsgs 1, 1⟩ exFiles exOracles (.ok (exResponse exArgsGood)) true 50
      none none).session.last_consolidated
      < (⟨exMsgs 1, 1⟩ : Session).last_consolidated := by
  exact ⟨by decide, by decide, by decide⟩

/-- C5 witness: bounds at a concrete successful call. -/
theorem C5_cursor_invariant_witness :
    exSession4.last_consolidated ≤ exSession4.messages.length ∧
    (consolidate exSession4 exFiles exOracles (.ok (exResponse exArgsGood)) false 4
      none none).session.last_consolidated ≤ exSession4.messages.length :=
  ⟨by decide,
    (C5_cursor_invariant exSession4 exFiles exOracles (.ok (exResponse exArgsGood))
      false 4 none none (by decide) _ rfl).2.1⟩

/-! ## C6 -/

/-- C6 (amended): in a call that reaches response handling with a valid
argument dict, a history_entry that is present and truthy is appended to
HISTORY.md after string coercion (non-string values via the canonical
json.dumps encoding, so a truthy entry is never dropped because of its
type); a present but falsy history_entry (of any type) is skipped. -/
theorem C6_history_entry_coercion (session : Session) (files : MemoryFiles) (o : Oracles)
    (archive_all : Bool) (memory_window : Nat) (user_id : Option Int)
    (vector_store : Option VectorMemoryStore) (resp : ChatResponse)
    (sel : List Message × Nat) (tc : ToolCall) (kvs : List (String × PyVal))
    (hsel : selectOld session archive_all memory_window = some sel)
    (htc : resp.has_tool_calls = true)
    (hhd : resp.tool_calls.head? = some tc)
    (hargs : resolveArgs o tc.arguments = some (.vDict kvs))
    (r : ConsolidateResult)
    (hr : r = consolidate session files o (.ok resp) archive_all memory_window
      user_id vector_store) :
    (∀ v, pyGet kvs "history_entry" = some v → truthy v = true →
      r.files.history_file = append_history files.history_file (coerceToStr v)) ∧
    (∀ v, isStr v = false → coerceToStr v = dumps v) ∧
    (∀ v, pyGet kvs "history_entry" = some v → truthy v = false →
      r.files.history_file = files.history_file) := by
  subst hr
  rw [consolidate_dict hsel htc hhd hargs]
  have hfields :
      (handleArgs session files o archive_all sel.2 user_id vector_store
        (sel.1.filterMap formatLine) kvs).files
        = (applyMemoryUpdate files.memory_file (applyHistoryEntry files kvs) kvs).1 := by
    cases hf : factsOutcome o user_id vector_store kvs with
    | none => rw [handleArgs_err hf]
    | some done => rw [handleArgs_ok hf]
  rw [hfields]
  rw [(applyMemoryUpdate_spec files.memory_file (applyHistoryEntry files kvs) kvs).2.2.2]
  refine ⟨?_, ?_, ?_⟩
  · intro v hv ht
    simp [applyHistoryEntry, hv, ht]
  · intro v hv
    cases v <;> simp_all [isStr, coerceToStr]
  · intro v hv ht
    simp [applyHistoryEntry, hv, ht]

/-- C6 counterexample: a present, non-string history_entry that is falsy
(false) is dropped: nothing is appended to HISTORY.md even though the
call succeeds. -/
theorem C6_counterexample_falsy_entry :
    pyGet c6Kvs "history_entry" = some (.vBool false) ∧
    isStr (.vBool false) = false ∧
    (consolidate exSession4 exFiles exOracles (.ok (exResponse (.vDict c6Kvs))) false 4
      none none).ok = true ∧
    (consolidate exSession4 exFiles exOracles (.ok (exResponse (.vDict c6Kvs))) false 4
      none none).files.history_file = exFiles.history_file :=
  ⟨rfl, rfl, by decide, by decide⟩

/-- C6 witness: a truthy non-string history_entry is dumped and
appended. -/
theorem C6_history_entry_coercion_witness :
    (consolidate exSession4 exFiles exOracles (.ok (exResponse (.vDict c6wKvs))) false 4
      none none).files.history_file
      = append_history exFiles.history_file (coerceToStr (.vList [.vStr "a", .vInt 3])) ∧
    append_history exFiles.history_file (coerceToStr (.vList [.vStr "a", .vInt 3]))
      = "[\"a\", 3]\n\n" := by
  have h := (C6_history_entry_coercion exSession4 exFiles exOracles false 4 none none
    (exResponse (.vDict c6wKvs)) ([exMsg, exMsg], 2) ⟨.vDict c6wKvs⟩ c6wKvs
    (by decide) rfl rfl rfl _ rfl).1 (.vList [.vStr "a", .vInt 3]) rfl rfl
  exact ⟨h, by decide⟩

/-! ## C7 -/

lemma processFacts_calls (o : Oracles) (uid : Int) :
    ∀ (items : List PyVal) (vs : VectorMemoryStore),
      (processFacts o uid vs items).2 = factsForwarded uid items := by
  intro items
  induction items with
  | nil => intro vs; rfl
  | cons f rest ih =>
    intro vs
    cases f with
    | vStr s =>
      by_cases hs : pyStrip s ≠ "" <;> simp [processFacts, factsForwarded, hs, ih]
    | vNone => simp [processFacts, factsForwarded, ih]
    | vBool b => simp [processFacts, factsForwarded, ih]
    | vInt n => simp [processFacts, factsForwarded, ih]
    | vList xs => simp [processFacts, factsForwarded, ih]
    | vDict kvs => simp [processFacts, factsForwarded, ih]

lemma factsForwarded_user (uid : Int) :
    ∀ items : List PyVal, ∀ c ∈ factsForwarded uid items, c.1 = uid := by
  intro items
  induction items with
  | nil => intro c hc; cases hc
  | cons f rest ih =>
    intro c hc
    cases f with
    | vStr s =>
      by_cases hs : pyStrip s ≠ ""
      · rw [factsForwarded, if_pos hs] at hc
        rcases List.mem_cons.mp hc with rfl | hc
        · rfl
        · exact ih c hc
      · rw [factsForwarded, if_neg hs] at hc
        exact ih c hc
    | vNone => exact ih c hc
    | vBool b => exact ih c hc
    | vInt n => exact ih c hc
    | vList xs => exact ih c hc
    | vDict kvs => exact ih c hc

/-- C7 (amended): in a call that reaches response handling with a valid
argument dict, the facts loop runs exactly when the supplied user_id is
truthy (present and non-zero), a vector store is supplied, and the facts
value is truthy: each listed fact that is a string and non-blank after
stripping is forwarded, in order, to add_memory scoped to user_id, and
the call still returns true whatever each embedding does; when user_id or
the store is missing, fact persistence is silently skipped and the call
still succeeds (the same silent skip also happens for a supplied but zero
user_id, which the original claim does not allow); a fact whose embedding
fails inserts no row and fails nothing. -/
theorem C7_facts_persistence (session : Session) (files : MemoryFiles) (o : Oracles)
    (archive_all : Bool) (memory_window : Nat) (user_id : Option Int)
    (vector_store : Option VectorMemoryStore) (resp : ChatResponse)
    (sel : List Message × Nat) (tc : ToolCall) (kvs : List (String × PyVal))
    (hsel : selectOld session archive_all memory_window = some sel)
    (htc : resp.has_tool_calls = true)
    (hhd : resp.tool_calls.head? = some tc)
    (hargs : resolveArgs o tc.arguments = some (.vDict kvs))
    (r : ConsolidateResult)
    (hr : r = consolidate session files o (.ok resp) archive_all memory_window
      user_id vector_store) :
    (∀ uid vs items, user_id = some uid → uid ≠ 0 → vector_store = some vs →
      pyGet kvs "facts" = some (.vList items) → items ≠ [] →
      r.ok = true ∧
      r.addMemoryCalls = factsForwarded uid items ∧
      r.vector_store = some (processFacts o uid vs items).1 ∧
      ∀ c ∈ r.addMemoryCalls, c.1 = uid) ∧
    (user_id = none ∨ vector_store = none →
      r.ok = true ∧ r.addMemoryCalls = [] ∧ r.vector_store = vector_store) ∧
    (∀ vs2 uid content, get_embeddings vs2 (o.embed content) = none →
      add_memory vs2 o uid content = vs2) := by
  subst hr
  rw [consolidate_dict hsel htc hhd hargs]
  refine ⟨?_, ?_, ?_⟩
  · intro uid vs items hu h0 hv hfacts hne
    subst hu
    subst hv
    have htruthy : truthy (.vList items) = true := by
      simp [truthy, hne]
    have hf : factsOutcome o (some uid) (some vs) kvs
        = some (some (processFacts o uid vs items).1, (processFacts o uid vs items).2) := by
      simp [factsOutcome, h0, hfacts, htruthy, pyIter]
    rw [handleArgs_ok hf]
    refine ⟨rfl, processFacts_calls o uid items vs, rfl, ?_⟩
    intro c hc
    rw [processFacts_calls o uid items vs] at hc
    exact factsForwarded_user uid items c hc
  · intro h
    have hf : factsOutcome o user_id vector_store kvs = some (vector_store, []) := by
      rcases h with h | h
      · subst h
        rfl
      · subst h
        cases user_id <;> rfl
    rw [handleArgs_ok hf]
    exact ⟨rfl, rfl, rfl⟩
  · intro vs2 uid content hemb
    cases hdb : vs2.db with
    | none => simp [add_memory, hdb]
    | some db =>
      cases he : db.enabled with
      | false => simp [add_memory, hdb, he]
      | true =>
        cases hp : db.pool with
        | none => simp [add_memory, hdb, he, hp]
        | some t => simp [add_memory, hdb, he, hp, hemb]

/-- C7 counterexample: with a supplied user_id of 0, a supplied live
vector store and a valid non-blank string fact, no fact is forwarded to
add_memory and the store is untouched, although the original claim
requires forwarding whenever both user_id and store are supplied. -/
theorem C7_counterexample_zero_user :
    pyGet exKvsGood "facts" = some (.vList [.vStr "User has a dog named Rex"]) ∧
    (consolidate exSession4 exFiles exOracles (.ok (exResponse exArgsGood)) false 4
      (some 0) (some exVs)).ok = true ∧
    (consolidate exSession4 exFiles exOracles (.ok (exResponse exArgsGood)) false 4
      (some 0) (some exVs)).addMemoryCalls = [] ∧
    (consolidate exSession4 exFiles exOracles (.ok (exResponse exArgsGood)) false 4
      (some 0) (some exVs)).vector_store = some exVs :=
  ⟨rfl, by decide, by decide, by decide⟩

/-- C7 witness: with a truthy user_id and a live store the single
non-blank string fact is forwarded once, scoped to that user. -/
theorem C7_facts_persistence_witness :
    (consolidate exSession4 exFiles exOracles (.ok (exResponse exArgsGood)) false 4
      (some 7) (some exVs)).ok = true ∧
    (consolidate exSession4 exFiles exOracles (.ok (exResponse exArgsGood)) false 4
      (some 7) (some exVs)).addMemoryCalls
      = factsForwarded 7 [.vStr "User has a dog named Rex"] ∧
    factsForwarded 7 [.vStr "User has a dog named Rex"]
      = [(7, "User has a dog named Rex")] := by
  have h := (C7_facts_persistence exSession4 exFiles exOracles false 4 (some 7)
    (some exVs) (exResponse exArgsGood) ([exMsg, exMsg], 2) ⟨exArgsGood⟩ exKvsGood
    (by decide) rfl rfl rfl _ rfl).1 7 exVs [.vStr "User has a dog named Rex"]
    rfl (by decide) rfl rfl (List.cons_ne_nil _ _)
  exact ⟨h.1, h.2.1, by decide⟩

end Nanobot
